import Mathlib

/-!
Verification development for the tag-analysis core of the
claude-knowledge-converter repository (src/tag_analyzer.py).

The Python code is shallowly embedded: Python strings are Lean `String`s
manipulated through their character lists, Python dicts/Counters are
insertion-ordered association lists, Python sets are lists used only through
membership, and Python floats are real numbers (`ℝ`), with `int(...)`
modelled as truncation toward zero.  `sorted(..., key=k, reverse=True)` is
modelled by the stable insertion sort `List.insertionSort` with the relation
`fun a b => k b ≤ k a`, which is descending and stable exactly like Python's
`sorted`.
-/

/-- Python `s.startswith(p)` on strings. -/
def pyStartsWith (s p : String) : Bool :=
  List.isPrefixOf p.data s.data

/-- Python `s[n:]` for a nonnegative `n` on strings. -/
def pyDrop (s : String) (n : ℕ) : String :=
  String.mk (s.data.drop n)

/-- Python `s.lower()` (ASCII-adequate model). -/
def pyLower (s : String) : String :=
  String.mk (s.data.map Char.toLower)

/-- Python `len(s)` on strings. -/
def pyLen (s : String) : ℕ :=
  s.data.length

/-- Python `int(x)` on a float: truncation toward zero. -/
noncomputable def pyInt (x : ℝ) : ℤ :=
  if 0 ≤ x then ⌊x⌋ else ⌈x⌉

/-- Python `sorted(l, key := k, reverse := True)`: a stable descending sort.
`List.insertionSort` inserts each element before the first element whose key
is `≤` its own, so elements with equal keys keep their original order,
exactly as Python's stable sort does. -/
def pySortDesc {α β : Type} [LinearOrder β] (key : α → β) (l : List α) : List α :=
  List.insertionSort (fun a b => key b ≤ key a) l

/-- Python `sorted(l)` on machine integers (ascending). -/
def pySortAsc (l : List ℕ) : List ℕ :=
  List.insertionSort (fun a b => a ≤ b) l

/-- Python `Counter[k] += 1` on an insertion-ordered table: bump the count in
place when the key is present, otherwise append the key with count 1. -/
def counterAdd (l : List (String × ℕ)) (k : String) : List (String × ℕ) :=
  if l.any (fun p => p.1 == k) then
    l.map (fun p => if p.1 == k then (p.1, p.2 + 1) else p)
  else
    l ++ [(k, 1)]

/-- Python `set.add`: membership-preserving insertion. -/
def setAdd (l : List String) (k : String) : List String :=
  if l.contains k then l else l ++ [k]

/-- The state of `TagAnalyzer` (tag_analyzer.py lines 17-24): two
insertion-ordered count tables, the two origin sets and the exclusion set. -/
structure TagAnalyzer where
  tag_counts : List (String × ℕ)
  conversation_tags : List String
  keyword_tags : List String
  exclusions : List String
  file_patterns : List (String × ℕ)
deriving DecidableEq

/-- The leading-`#` strip at the top of `add_tag` (lines 45-46):
`if tag.startswith('#'): tag = tag[1:]`. -/
def stripHash (tag : String) : String :=
  if pyStartsWith tag "#" then pyDrop tag 1 else tag

/-- `TagAnalyzer.add_tag` (lines 43-54). -/
def add_tag (a : TagAnalyzer) (tag : String) (tag_type : String) : TagAnalyzer :=
  let tag := stripHash tag
  if tag_type == "conversation" then
    { a with conversation_tags := setAdd a.conversation_tags tag,
             tag_counts := counterAdd a.tag_counts tag }
  else
    { a with keyword_tags := setAdd a.keyword_tags tag,
             tag_counts := counterAdd a.tag_counts tag }

/-- `TagAnalyzer.get_filtered_tags` (lines 56-71): drop a tag when it is in
the keyword set with its lowercase form in the exclusion set, and drop tags
below `min_count`.  The Python default for `min_count` is 2; callers here
pass it explicitly. -/
def get_filtered_tags (a : TagAnalyzer) (min_count : ℕ) : List (String × ℕ) :=
  a.tag_counts.filter (fun p =>
    !(a.keyword_tags.contains p.1 && a.exclusions.contains (pyLower p.1)) &&
      decide (min_count ≤ p.2))

/-- `TagAnalyzer.calculate_water_level` (lines 73-108).  The final loop
(`for count in counts: if count <= 30: return 30` followed by `return 30`)
is kept as a `find?` match, both arms returning 30 as in the source.
`int(max_count * 0.3)` is embedded as `3 * max_count / 10`: the guard
ensures `max_count ≤ 30`, and for every such value the Python float
expression `int(max_count * 0.3)` equals `⌊3 * max_count / 10⌋`. -/
def calculate_water_level (a : TagAnalyzer) : ℕ :=
  let filtered_tags := get_filtered_tags a 1
  if filtered_tags.isEmpty then 30
  else
    let counts := pySortDesc (fun n => n) (filtered_tags.map (fun p => p.2))
    if counts.length < 10 then
      max 2 (counts.getD (counts.length / 2) 0)
    else
      let max_count := counts.getD 0 0
      if max_count ≤ 30 then
        max 2 (3 * max_count / 10)
      else
        match counts.find? (fun c => c ≤ 30) with
        | some _ => 30
        | none => 30

/-- `TagAnalyzer._calculate_bayesian_score` (lines 110-143), with Python
floats modelled as reals and `math.log` as `Real.log`. -/
noncomputable def calculate_bayesian_score (term : String) (count : ℕ) (total_terms : ℕ)
    (doc_freq : Option ℕ) (total_docs : Option ℕ) (is_file_pattern : Bool) : ℝ :=
  let tf : ℝ := if 0 < total_terms then (count : ℝ) / (total_terms : ℝ) else 0
  let prior : ℝ := 1.0
  let prior := if pyStartsWith term "conv-" then prior * 1.2 else prior
  let prior :=
    if is_file_pattern then prior * 1.5
    else if pyLen term < 4 then prior * 0.5
    else if 8 < pyLen term then prior * 1.1
    else prior
  match doc_freq, total_docs with
  | some df, some td =>
      if 0 < td then tf * Real.log ((td : ℝ) / (1 + (df : ℝ))) * prior
      else tf * prior * Real.log ((count : ℝ) + 1)
  | _, _ => tf * prior * Real.log ((count : ℝ) + 1)

/-- `colorsys._v`: the hue helper of the standard-library HLS conversion. -/
noncomputable def hlsV (m1 m2 hue : ℝ) : ℝ :=
  let hue := Int.fract hue
  if hue < 1 / 6 then m1 + (m2 - m1) * hue * 6
  else if hue < 1 / 2 then m2
  else if hue < 2 / 3 then m1 + (m2 - m1) * (2 / 3 - hue) * 6
  else m1

/-- `colorsys.hls_to_rgb` from the Python standard library. -/
noncomputable def hls_to_rgb (h l s : ℝ) : ℝ × ℝ × ℝ :=
  if s = 0 then (l, l, l)
  else
    let m2 := if l ≤ 0.5 then l * (1 + s) else l + s - l * s
    let m1 := 2 * l - m2
    (hlsV m1 m2 (h + 1 / 3), hlsV m1 m2 h, hlsV m1 m2 (h - 1 / 3))

/-- `TagAnalyzer._hsl_to_rgb` (lines 508-511). -/
noncomputable def hsl_to_rgb (h s l : ℝ) : ℤ × ℤ × ℤ :=
  match hls_to_rgb h l s with
  | (r, g, b) => (pyInt (r * 255), pyInt (g * 255), pyInt (b * 255))

/-- The `rainbow` branch of `_get_color_for_index` (lines 270-275); the
unknown-scheme default recurses into this same branch. -/
noncomputable def rainbowColor (index : ℕ) : ℤ × ℤ × ℤ :=
  let hue := Int.fract ((index : ℝ) * 0.618033988749895)
  hsl_to_rgb hue 0.7 0.5

/-- `min(255, max(0, c))` as used by the viridis and plasma branches. -/
def clamp255 (n : ℤ) : ℤ := min 255 (max 0 n)

/-- `TagAnalyzer._get_color_for_index` (lines 265-506): all twelve named
schemes plus the hsl pair and the rainbow fallback, translated branch by
branch. -/
noncomputable def get_color_for_index (index total : ℕ) (scheme item_type : String) :
    ℤ × ℤ × ℤ :=
  let t : ℝ := if 1 < total then (index : ℝ) / ((total : ℝ) - 1) else 0
  if scheme == "rainbow" then rainbowColor index
  else if scheme == "heatmap" then
    if t < 0.33 then (pyInt (t * 3 * 255), 0, 0)
    else if t < 0.66 then (255, pyInt ((t - 0.33) * 3 * 255), 0)
    else (255, 255, pyInt ((t - 0.66) * 3 * 255))
  else if scheme == "viridis" then
    let r := pyInt (255 * (0.267 + t * (0.004 + t * (0.329 + t * 0.4))))
    let g := pyInt (255 * (0.004 + t * (0.704 + t * (0.192 + t * 0.1))))
    let b := pyInt (255 * (0.329 + t * (0.456 + t * (-0.785 + t * 1.0))))
    (clamp255 r, clamp255 g, clamp255 b)
  else if scheme == "plasma" then
    let r := pyInt (255 * (0.05 + t * (2.35 - t * 1.4)))
    let g := pyInt (255 * (0.03 + t * (0.07 + t * 0.9)))
    let b := pyInt (255 * (0.53 + t * (0.44 - t * 0.97)))
    (clamp255 r, clamp255 g, clamp255 b)
  else if scheme == "cool_warm" then
    if t < 0.5 then
      let t2 := t * 2
      (pyInt (t2 * 255), pyInt (t2 * 255), 255)
    else
      let t2 := (t - 0.5) * 2
      (255, pyInt ((1 - t2) * 255), pyInt ((1 - t2) * 255))
  else if scheme == "cool" then
    if t < 0.5 then
      let t2 := t * 2
      (0, pyInt (t2 * 128), pyInt (255 - t2 * 127))
    else
      let t2 := (t - 0.5) * 2
      (pyInt (t2 * 128), pyInt (128 + t2 * 127), pyInt (128 - t2 * 128))
  else if scheme == "warm" then
    if t < 0.5 then
      let t2 := t * 2
      (pyInt (128 + t2 * 127), pyInt (t2 * 165), 0)
    else
      let t2 := (t - 0.5) * 2
      (255, pyInt (165 + t2 * 90), pyInt (t2 * 128))
  else if scheme == "terrain" then
    if t < 0.4 then
      let t2 := t / 0.4
      (pyInt (34 + t2 * 102), pyInt (139 - t2 * 69), pyInt (34 + t2 * 11))
    else if t < 0.8 then
      let t2 := (t - 0.4) / 0.4
      (pyInt (136 + t2 * 65), pyInt (70 + t2 * 70), pyInt (45 + t2 * 45))
    else
      let t2 := (t - 0.8) / 0.2
      (pyInt (201 + t2 * 54), pyInt (140 + t2 * 115), pyInt (90 + t2 * 165))
  else if scheme == "ocean" then
    let t2 := t * t
    (pyInt (5 + t2 * 75), pyInt (39 + t * 180), pyInt (87 + t * 168))
  else if scheme == "sunset" then
    if t < 0.4 then
      let t2 := t / 0.4
      (pyInt (75 + t2 * 180), pyInt (0 + t2 * 69), pyInt (130 - t2 * 130))
    else
      let t2 := (t - 0.4) / 0.6
      (255, pyInt (69 + t2 * 186), pyInt (0 + t2 * 224))
  else if scheme == "forest" then
    if t < 0.7 then
      let t2 := t / 0.7
      (pyInt (34 + t2 * 100), pyInt (68 + t2 * 137), pyInt (34 - t2 * 34))
    else
      let t2 := (t - 0.7) / 0.3
      (pyInt (134 + t2 * 121), pyInt (205 + t2 * 50), pyInt (0 + t2 * 50))
  else if scheme == "desert" then
    (pyInt (139 + t * 116), pyInt (90 + t * 140), pyInt (43 + t * 177))
  else if scheme == "arctic" then
    if t < 0.6 then
      let t2 := t / 0.6
      (pyInt (25 + t2 * 148), pyInt (51 + t2 * 165), pyInt (102 + t2 * 138))
    else
      let t2 := (t - 0.6) / 0.4
      (pyInt (173 + t2 * 82), pyInt (216 + t2 * 39), pyInt (240 + t2 * 15))
  else if scheme == "lava" then
    if t < 0.33 then (pyInt (t * 3 * 255), 0, 0)
    else if t < 0.66 then (255, pyInt ((t - 0.33) * 3 * 255), 0)
    else (255, 255, pyInt ((t - 0.66) * 3 * 128))
  else if scheme == "turbo" then
    if t < 0.2 then
      (pyInt (48 + t * 5 * 30), pyInt (18 + t * 5 * 60), pyInt (59 + t * 5 * 196))
    else if t < 0.4 then
      let t2 := (t - 0.2) * 5
      (pyInt (78 + t2 * 100), pyInt (78 + t2 * 177), pyInt (255 - t2 * 155))
    else if t < 0.6 then
      let t2 := (t - 0.4) * 5
      (pyInt (178 + t2 * 77), 255, pyInt (100 - t2 * 100))
    else if t < 0.8 then
      let t2 := (t - 0.6) * 5
      (255, pyInt (255 - t2 * 140), 0)
    else
      let t2 := (t - 0.8) * 5
      (pyInt (255 - t2 * 100), pyInt (115 - t2 * 97), 0)
  else if scheme == "hsl" then
    hsl_to_rgb t 0.7 0.5
  else if scheme == "hsl_inverted" then
    hsl_to_rgb (1.0 - t) 0.7 0.5
  else
    rainbowColor index

/-- `TagAnalyzer._rgb_to_int` (lines 513-516): `(r << 16) | (g << 8) | b`.
Every scheme branch produces nonnegative channels, where Python's shift/or
on ints coincide with the ℕ bit operations used here. -/
def rgb_to_int (rgb : ℤ × ℤ × ℤ) : ℤ :=
  (((rgb.1.toNat <<< 16) ||| (rgb.2.1.toNat <<< 8) ||| rgb.2.2.toNat : ℕ) : ℤ)

/-- The alpha/rgb pair `{"a": 1, "rgb": rgb_int}` of a color group. -/
structure GroupColor where
  a : ℤ
  rgb : ℤ
deriving DecidableEq

/-- One output color group `{"query": ..., "color": {...}}` (lines 209-215,
255-261). -/
structure ColorGroup where
  query : String
  color : GroupColor
deriving DecidableEq

/-- Effective tag water level inside `generate_color_groups` (lines
181-182): `if water_level is None: water_level = self.calculate_water_level()`.
The guard on line 160 makes the `none` arm unreachable from the public entry
point, but it is embedded faithfully. -/
def effectiveWaterLevel (a : TagAnalyzer) (water_level : Option ℤ) : ℤ :=
  match water_level with
  | none => (calculate_water_level a : ℤ)
  | some w => w

/-- `above_water_tags` (lines 184-186): the default-filtered table restricted
to counts at or above the water level. -/
def aboveWaterTags (a : TagAnalyzer) (water_level : Option ℤ) : List (String × ℕ) :=
  (get_filtered_tags a 2).filter
    (fun p => decide (effectiveWaterLevel a water_level ≤ (p.2 : ℤ)))

/-- `tag_scores` (lines 188-196): label, Bayesian score and raw count in
table order, with the total of above-water occurrences as normalizer. -/
noncomputable def tagScores (a : TagAnalyzer) (water_level : Option ℤ) :
    List (String × ℝ × ℕ) :=
  let above := aboveWaterTags a water_level
  let total_tag_occurrences := (above.map (fun p => p.2)).sum
  above.map (fun p =>
    (p.1, calculate_bayesian_score p.1 p.2 total_tag_occurrences none none false, p.2))

/-- `sorted_tags` (lines 198-202): stable sort by score descending, truncated
to the allocated slots. -/
noncomputable def sortedTags (a : TagAnalyzer) (water_level : Option ℤ) (tag_slots : ℕ) :
    List (String × ℝ × ℕ) :=
  (pySortDesc (fun x => x.2.1) (tagScores a water_level)).take tag_slots

/-- Tag section of `generate_color_groups` (lines 177-215). -/
noncomputable def tagGroupsPart (a : TagAnalyzer) (water_level : Option ℤ)
    (tag_slots : ℕ) (tag_color_scheme : String) : List ColorGroup :=
  if (aboveWaterTags a water_level).isEmpty then []
  else
    (sortedTags a water_level tag_slots).enum.map (fun ix =>
      { query := "tag: #" ++ ix.2.1,
        color := { a := 1,
                   rgb := rgb_to_int (get_color_for_index ix.1
                     (sortedTags a water_level tag_slots).length tag_color_scheme "tag") } })

/-- The automatic file-pattern water level (lines 220-227):
`index = int(len(pattern_counts) * 0.1)` and then
`pattern_counts[-index] if index < len(pattern_counts) else pattern_counts[-1]`
on the ascending-sorted counts, with `2` as the empty-table fallback.
Python's negative indexing `[-index]` is element `len - index` for
`index ≥ 1` but element `0` for `index = 0` (`-0 == 0`), which the modular
index below reproduces. -/
def autoFileWaterLevel (counts : List ℕ) : ℤ :=
  let pattern_counts := pySortAsc counts
  if pattern_counts.isEmpty then 2
  else
    let index := pattern_counts.length / 10
    if index < pattern_counts.length then
      (pattern_counts.getD ((pattern_counts.length - index) % pattern_counts.length) 0 : ℤ)
    else
      (pattern_counts.getD (pattern_counts.length - 1) 0 : ℤ)

/-- Effective file-pattern water level (lines 219-227). -/
def effectiveFileWaterLevel (a : TagAnalyzer) (file_water_level : Option ℤ) : ℤ :=
  match file_water_level with
  | none => autoFileWaterLevel (a.file_patterns.map (fun p => p.2))
  | some w => w

/-- `above_water_patterns` (lines 229-231). -/
def aboveWaterPatterns (a : TagAnalyzer) (file_water_level : Option ℤ) :
    List (String × ℕ) :=
  a.file_patterns.filter
    (fun p => decide (effectiveFileWaterLevel a file_water_level ≤ (p.2 : ℤ)))

/-- `pattern_scores` (lines 233-242). -/
noncomputable def patternScores (a : TagAnalyzer) (file_water_level : Option ℤ) :
    List (String × ℝ × ℕ) :=
  let above := aboveWaterPatterns a file_water_level
  let total_pattern_occurrences := (above.map (fun p => p.2)).sum
  above.map (fun p =>
    (p.1, calculate_bayesian_score p.1 p.2 total_pattern_occurrences none none true, p.2))

/-- `sorted_patterns` (lines 244-246). -/
noncomputable def sortedPatterns (a : TagAnalyzer) (file_water_level : Option ℤ)
    (file_slots : ℕ) : List (String × ℝ × ℕ) :=
  (pySortDesc (fun x => x.2.1) (patternScores a file_water_level)).take file_slots

/-- File-pattern section of `generate_color_groups` (lines 217-261),
including the `self.file_patterns` nonemptiness test of line 218. -/
noncomputable def fileGroupsPart (a : TagAnalyzer) (file_water_level : Option ℤ)
    (file_slots : ℕ) (file_color_scheme : String) : List ColorGroup :=
  if a.file_patterns.isEmpty then []
  else
    (sortedPatterns a file_water_level file_slots).enum.map (fun ix =>
      { query := "file: " ++ ix.2.1,
        color := { a := 1,
                   rgb := rgb_to_int (get_color_for_index ix.1
                     (sortedPatterns a file_water_level file_slots).length
                     file_color_scheme "file") } })

/-- `TagAnalyzer.generate_color_groups` (lines 145-263).  `water_level is
None` maps to `none`; a space is included iff its level is a `some` that is
positive (lines 159-162).  Slot allocation follows lines 164-175, and the
`max_groups` parameter is accepted and never read, exactly as in the
source. -/
noncomputable def generate_color_groups (a : TagAnalyzer) (water_level : Option ℤ)
    (max_groups : ℤ) (file_water_level : Option ℤ)
    (tag_color_scheme file_color_scheme : String) : List ColorGroup :=
  let include_tags := match water_level with
    | some w => decide (0 < w)
    | none => false
  let include_patterns := match file_water_level with
    | some w => decide (0 < w)
    | none => false
  if include_tags && include_patterns then
    tagGroupsPart a water_level 30 tag_color_scheme ++
      fileGroupsPart a file_water_level 30 file_color_scheme
  else if include_tags then
    tagGroupsPart a water_level 60 tag_color_scheme
  else if include_patterns then
    fileGroupsPart a file_water_level 60 file_color_scheme
  else []

/-- JSON documents, as produced by `json.load`: objects keep the insertion
order of their fields. -/
inductive Json where
  | null : Json
  | bool (b : Bool) : Json
  | num (n : ℤ) : Json
  | str (s : String) : Json
  | arr (elems : List Json) : Json
  | obj (fields : List (String × Json)) : Json

/-- Python `d[k] = v` on an insertion-ordered JSON object: replace the value
in place when the key exists, otherwise append the pair at the end. -/
def dictSetItem (fields : List (String × Json)) (k : String) (v : Json) :
    List (String × Json) :=
  if fields.any (fun p => p.1 == k) then
    fields.map (fun p => if p.1 == k then (k, v) else p)
  else
    fields ++ [(k, v)]

/-- The JSON encoding of the generated color groups (lines 209-215 and
255-261 fix the field order query, color / a, rgb). -/
noncomputable def encodeGroups (groups : List ColorGroup) : Json :=
  Json.arr (groups.map (fun g =>
    Json.obj [("query", Json.str g.query),
              ("color", Json.obj [("a", Json.num g.color.a), ("rgb", Json.num g.color.rgb)])]))

/-- `TagAnalyzer._generate_graph_json` (lines 543-564) on the parsed template
document: `graph_config['colorGroups'] = self.generate_color_groups(...)`
with `max_groups` left at its default 60, then re-serialization of the
updated document.  File I/O is abstracted away: the parsed template comes in
as an argument and the updated document is returned. -/
noncomputable def generate_graph_json (a : TagAnalyzer)
    (template : List (String × Json)) (tag_water_level file_water_level : Option ℤ)
    (tag_color_scheme file_color_scheme : String) : List (String × Json) :=
  dictSetItem template "colorGroups"
    (encodeGroups (generate_color_groups a tag_water_level 60 file_water_level
      tag_color_scheme file_color_scheme))

/-- Spec-side restatement of the water-level rule (spec section 4.3), for
comparison with `calculate_water_level`: 30 on an empty filtered table;
`max(2, countAtMedianRank)` below 10 labels; `max(2, floor(maxCount * 0.3))`
when the maximum count is at most 30; the constant 30 otherwise. -/
def waterLevelClaim (a : TagAnalyzer) : ℕ :=
  let filtered := get_filtered_tags a 1
  if filtered.isEmpty then 30
  else
    let counts := pySortDesc (fun n => n) (filtered.map (fun p => p.2))
    if counts.length < 10 then max 2 (counts.getD (counts.length / 2) 0)
    else if counts.getD 0 0 ≤ 30 then max 2 (3 * counts.getD 0 0 / 10)
    else 30

/-- Spec-side term frequency (spec section 4.4): `count / totalCountInSpace`,
0 if the total is 0. -/
noncomputable def tfClaim (count total : ℕ) : ℝ :=
  if total = 0 then 0 else (count : ℝ) / (total : ℝ)

/-- Spec-side prior (spec section 4.4): starts at 1.0, times 1.2 for the
conversation prefix, times 1.5 for file patterns, otherwise times 0.5 below
length 4 or times 1.1 above length 8. -/
noncomputable def priorClaim (term : String) (is_file_pattern : Bool) : ℝ :=
  (if pyStartsWith term "conv-" then (1.2 : ℝ) else 1) *
    (if is_file_pattern then (1.5 : ℝ)
     else if pyLen term < 4 then 0.5
     else if 8 < pyLen term then 1.1
     else 1)

/-- A fresh `TagAnalyzer()` with empty exclusions. -/
def emptyAnalyzer : TagAnalyzer := ⟨[], [], [], [], []⟩

/-- Registry where the tag `foo` is in both origin sets and in the exclusion
denylist. -/
def analyzerC1 : TagAnalyzer := ⟨[("foo", 5)], ["foo"], ["foo"], ["foo"], []⟩

/-- Registry with a conversation tag that is also denylisted but is not in
the keyword set. -/
def analyzerC1w : TagAnalyzer := ⟨[("conv-a", 3)], ["conv-a"], [], ["conv-a"], []⟩

/-- Registry with six eligible keyword tags. -/
def analyzerC2 : TagAnalyzer :=
  ⟨[("aaaa", 2), ("bbbb", 2), ("cccc", 2), ("dddd", 2), ("eeee", 2), ("ffff", 2)],
   [], ["aaaa", "bbbb", "cccc", "dddd", "eeee", "ffff"], [], []⟩

/-- Two equal-score keyword tags, inserted with `abce` first. -/
def analyzerC4a : TagAnalyzer :=
  ⟨[("abce", 2), ("abcd", 2)], [], ["abce", "abcd"], [], []⟩

/-- The same registry as `analyzerC4a` except for the insertion order of the
count table. -/
def analyzerC4b : TagAnalyzer :=
  ⟨[("abcd", 2), ("abce", 2)], [], ["abce", "abcd"], [], []⟩

/-- Registry with one file pattern and no tags. -/
def analyzerC7 : TagAnalyzer := ⟨[], [], [], [], [("aaa", 5)]⟩

theorem pySortDesc_length {α β : Type} [LinearOrder β] (key : α → β) (l : List α) :
    (pySortDesc key l).length = l.length :=
  (List.perm_insertionSort _ l).length_eq

theorem pySortDesc_pairwise {α β : Type} [LinearOrder β] (key : α → β) (l : List α) :
    (pySortDesc key l).Pairwise (fun x y => key y ≤ key x) := by
  haveI : IsTotal α (fun x y : α => key y ≤ key x) := ⟨fun a b => le_total (key b) (key a)⟩
  haveI : IsTrans α (fun x y : α => key y ≤ key x) := ⟨fun a b c h1 h2 => le_trans h2 h1⟩
  exact List.sorted_insertionSort _ l

theorem orderedInsert_filter_key {α β : Type} [LinearOrder β] (key : α → β)
    (c : β) (x : α) (l : List α) :
    (List.orderedInsert (fun a b => key b ≤ key a) x l).filter
        (fun y => decide (key y = c)) =
      if key x = c then x :: l.filter (fun y => decide (key y = c))
      else l.filter (fun y => decide (key y = c)) := by
  induction l with
  | nil =>
    simp only [List.orderedInsert, List.filter]
    by_cases h : key x = c <;> simp [h]
  | cons b l ih =>
    simp only [List.orderedInsert]
    by_cases hr : key b ≤ key x
    · rw [if_pos hr]
      by_cases h : key x = c <;> by_cases hb : key b = c <;>
        simp [List.filter, h, hb]
    · rw [if_neg hr]
      have hlt : key x < key b := lt_of_not_le hr
      by_cases h : key x = c
      · have hb : ¬(key b = c) := by
          intro e
          rw [h] at hlt
          rw [e] at hlt
          exact lt_irrefl c hlt
        simp [List.filter, hb, ih, h]
      · by_cases hb : key b = c <;> simp [List.filter, hb, ih, h]

theorem pySortDesc_filter_stable {α β : Type} [LinearOrder β] (key : α → β)
    (c : β) (l : List α) :
    (pySortDesc key l).filter (fun y => decide (key y = c)) =
      l.filter (fun y => decide (key y = c)) := by
  induction l with
  | nil => rfl
  | cons x l ih =>
    have hstep : pySortDesc key (x :: l) =
        List.orderedInsert (fun a b => key b ≤ key a) x (pySortDesc key l) := rfl
    rw [hstep, orderedInsert_filter_key]
    by_cases h : key x = c
    · rw [if_pos h, ih]
      simp [List.filter, h]
    · rw [if_neg h, ih]
      simp [List.filter, h]

/-- Claim C9: with its default arguments (`water_level = None` and
`file_water_level = None`) `generate_color_groups` returns the empty list,
for every registry state; inclusion of a space requires a supplied positive
water level, so the internal automatic water-level computations are
unreachable from this entry point. -/
theorem generate_color_groups_default_empty (a : TagAnalyzer) (max_groups : ℤ)
    (tag_color_scheme file_color_scheme : String) :
    generate_color_groups a none max_groups none tag_color_scheme file_color_scheme
      = [] := rfl

/-- Claim C6: `calculate_water_level` returns 30 on an empty filtered table,
`max(2, countAtMedianRank)` when fewer than 10 distinct labels remain,
`max(2, floor(maxCount * 0.3))` when the maximum count is at most 30, and
the constant 30 otherwise. -/
theorem calculate_water_level_spec (a : TagAnalyzer) :
    calculate_water_level a = waterLevelClaim a := by
  unfold calculate_water_level waterLevelClaim
  by_cases h1 : (get_filtered_tags a 1).isEmpty
  · simp [h1]
  · simp only [h1, Bool.false_eq_true, if_false]
    by_cases h2 :
        (pySortDesc (fun n => n) ((get_filtered_tags a 1).map (fun p => p.2))).length < 10
    · simp [h2]
    · simp only [h2, if_false]
      split_ifs with h3
      · rfl
      · cases hfind : (pySortDesc (fun n => n)
            ((get_filtered_tags a 1).map (fun p => p.2))).find? (fun c => decide (c ≤ 30)) <;>
          simp [hfind]

/-- Claim C7 (evaluation at the failing input): the file-pattern table is
nonempty and the automatic 90th-percentile threshold would be 5 (so the
pattern `aaa`, with count 5, would qualify), yet with an unsupplied file
water level `generate_color_groups` emits nothing at all: the percentile
branch is unreachable because `None` excludes the space. -/
theorem generate_color_groups_no_auto_file_level :
    generate_color_groups analyzerC7 none 60 none "ocean" "sunset" = [] ∧
    analyzerC7.file_patterns ≠ [] ∧
    autoFileWaterLevel (analyzerC7.file_patterns.map (fun p => p.2)) = 5 :=
  ⟨rfl, by decide, by decide⟩

/-- Claim C10 (counterexample): for `s = "#x"`, `add_tag('#' + s)` and
`add_tag(s)` do not increment the same entry: the former records `#x`, the
latter records `x`. -/
theorem add_tag_double_hash_counterexample :
    (add_tag emptyAnalyzer ("#" ++ "#x") "keyword").tag_counts = [("#x", 1)] ∧
    (add_tag emptyAnalyzer "#x" "keyword").tag_counts = [("x", 1)] ∧
    ("#x" : String) ≠ "x" := by
  refine ⟨by decide, by decide, by decide⟩

/-- Claim C10 (amended): `add_tag` strips exactly one leading `#`, so for
every string `s` that does not itself start with `#`, `add_tag('#' + s)` and
`add_tag(s)` produce identical analyzer states; and a stored label begins
with `#` only when the input began with `##`. -/
theorem add_tag_strip_amended :
    (∀ (a : TagAnalyzer) (s tag_type : String), pyStartsWith s "#" = false →
        add_tag a ("#" ++ s) tag_type = add_tag a s tag_type) ∧
    (∀ t : String, pyStartsWith (stripHash t) "#" = true →
        pyStartsWith t "##" = true) := by
  constructor
  · intro a s tag_type hs
    have hd : ("#" ++ s).data = '#' :: s.data := by
      rw [String.data_append]
      rfl
    have hp : pyStartsWith ("#" ++ s) "#" = true := by
      unfold pyStartsWith
      rw [hd]
      show List.isPrefixOf ['#'] ('#' :: s.data) = true
      simp [List.isPrefixOf]
    have h1 : stripHash ("#" ++ s) = s := by
      unfold stripHash
      rw [hp]
      simp only [if_true]
      unfold pyDrop
      rw [hd]
      rcases s with ⟨d⟩
      rfl
    have h2 : stripHash s = s := by
      unfold stripHash
      rw [hs]
      simp
    unfold add_tag
    rw [h1, h2]
  · intro t h
    rcases t with ⟨d⟩
    cases d with
    | nil => simp [stripHash, pyStartsWith, List.isPrefixOf] at h
    | cons c cs =>
      by_cases hc : c = '#'
      · subst hc
        have hp : pyStartsWith ⟨'#' :: cs⟩ "#" = true := by
          unfold pyStartsWith
          show List.isPrefixOf ['#'] ('#' :: cs) = true
          simp [List.isPrefixOf]
        have hstrip : stripHash ⟨'#' :: cs⟩ = ⟨cs⟩ := by
          unfold stripHash
          rw [hp]
          simp [pyDrop]
        rw [hstrip] at h
        show List.isPrefixOf ['#', '#'] ('#' :: cs) = true
        simpa [pyStartsWith, List.isPrefixOf] using h
      · have hns : pyStartsWith ⟨c :: cs⟩ "#" = false := by
          unfold pyStartsWith
          show List.isPrefixOf ['#'] (c :: cs) = false
          simp [List.isPrefixOf]
          intro he
          exact absurd he.symm hc
        unfold stripHash at h
        simp [hns] at h

/-- Claim C10 (witness for the amended theorem): concrete instance at
`s = "x"`. -/
theorem add_tag_strip_amended_witness :
    pyStartsWith "x" "#" = false ∧
    add_tag emptyAnalyzer ("#" ++ "x") "keyword" = add_tag emptyAnalyzer "x" "keyword" :=
  ⟨by decide, add_tag_strip_amended.1 emptyAnalyzer "x" "keyword" (by decide)⟩

/-- Claim C1 (counterexample): the tag `foo` is in the conversation-tag set
with count 5 ≥ 1, yet `get_filtered_tags` drops it, because it is also in
the keyword-tag set and its lowercase form is in the exclusion set. -/
theorem get_filtered_tags_conversation_counterexample :
    ("foo", 5) ∈ analyzerC1.tag_counts ∧
    "foo" ∈ analyzerC1.conversation_tags ∧
    (1 : ℕ) ≤ 5 ∧
    get_filtered_tags analyzerC1 1 = [] := by
  refine ⟨by decide, by decide, by decide, by decide⟩

/-- Claim C1 (amended): a conversation tag with count ≥ minCount always
appears in `get_filtered_tags`, unless it is simultaneously in the
keyword-tag set with its lowercase form in the exclusion set — for
dual-membership tags, keyword membership (not conversation membership)
takes precedence and the exclusion applies. -/
theorem get_filtered_tags_conversation_amended (a : TagAnalyzer) (min_count : ℕ)
    (tag : String) (count : ℕ)
    (hmem : (tag, count) ∈ a.tag_counts)
    (hconv : tag ∈ a.conversation_tags)
    (hcnt : min_count ≤ count)
    (hex : ¬(a.keyword_tags.contains tag = true ∧
             a.exclusions.contains (pyLower tag) = true)) :
    (tag, count) ∈ get_filtered_tags a min_count := by
  unfold get_filtered_tags
  rw [List.mem_filter]
  refine ⟨hmem, ?_⟩
  have hko : (a.keyword_tags.contains tag && a.exclusions.contains (pyLower tag)) = false := by
    cases h1 : a.keyword_tags.contains tag <;>
      cases h2 : a.exclusions.contains (pyLower tag) <;> simp_all
  dsimp only
  rw [hko]
  simp [hcnt]

/-- Claim C1 (witness for the amended theorem): the denylisted conversation
tag `conv-a` survives filtering because it is not in the keyword set. -/
theorem get_filtered_tags_conversation_amended_witness :
    (("conv-a", 3) ∈ analyzerC1w.tag_counts ∧
     "conv-a" ∈ analyzerC1w.conversation_tags ∧ (2 : ℕ) ≤ 3) ∧
    ("conv-a", 3) ∈ get_filtered_tags analyzerC1w 2 :=
  ⟨⟨by decide, by decide, by decide⟩,
   get_filtered_tags_conversation_amended analyzerC1w 2 "conv-a" 3
     (by decide) (by decide) (by decide) (by decide)⟩

theorem tagGroupsPart_length (a : TagAnalyzer) (wl : Option ℤ) (slots : ℕ)
    (scheme : String) :
    (tagGroupsPart a wl slots scheme).length =
      if (aboveWaterTags a wl).isEmpty then 0
      else min slots (aboveWaterTags a wl).length := by
  unfold tagGroupsPart
  by_cases h : (aboveWaterTags a wl).isEmpty
  · simp [h]
  · simp [h, sortedTags, tagScores, pySortDesc_length]

/-- Claim C2 (evaluation at the failing input): with a total slot budget of
5 (the `max_groups` argument) and six eligible tags, `generate_color_groups`
emits six groups — the budget parameter is accepted but never read, so the
output length is not bounded by it. -/
theorem generate_color_groups_budget_bug :
    (generate_color_groups analyzerC2 (some 1) 5 none "rainbow" "rainbow").length = 6 ∧
    ¬((generate_color_groups analyzerC2 (some 1) 5 none "rainbow" "rainbow").length ≤ 5) := by
  have h : generate_color_groups analyzerC2 (some 1) 5 none "rainbow" "rainbow" =
      tagGroupsPart analyzerC2 (some 1) 60 "rainbow" := rfl
  have hlen : (tagGroupsPart analyzerC2 (some 1) 60 "rainbow").length = 6 := by
    rw [tagGroupsPart_length]
    decide
  exact ⟨h ▸ hlen, by rw [h, hlen]; decide⟩

/-- Claim C3 (evaluation at the failing input): the heatmap scheme at the
last rank (`index = 1`, `total = 2`, so `t = 1`) produces a blue channel of
`int((1 - 0.66) * 3 * 255) = 260`, which exceeds 255 — the heatmap branch
does not clamp. -/
theorem get_color_for_index_heatmap_overflow :
    get_color_for_index 1 2 "heatmap" "tag" = (255, 255, 260) ∧ (255 : ℤ) < 260 := by
  constructor
  · have e1 : (("heatmap" : String) == "rainbow") = false := by decide
    have e2 : (("heatmap" : String) == "heatmap") = true := by decide
    simp only [get_color_for_index, e1, e2, Bool.false_eq_true, if_false, if_true]
    norm_num
    unfold pyInt
    rw [if_pos (by norm_num)]
    rw [Int.floor_eq_iff]
    constructor <;> norm_num
  · norm_num

/-- Claim C5: for count ≥ 1, the relevance score equals
`tf * prior * log(count + 1)` when `doc_freq`/`total_docs` are absent, and
`tf * log(total_docs / (1 + doc_freq)) * prior` when both are supplied with
`total_docs > 0`, where `tf = count / totalCountInSpace` (0 when the total
is 0) and the prior is 1.0 times 1.2 for the `conv-` prefix, times 1.5 for
file patterns, and otherwise times 0.5 below length 4 or 1.1 above
length 8. -/
theorem calculate_bayesian_score_spec (term : String) (count total_terms : ℕ)
    (is_fp : Bool) (hcount : 1 ≤ count) :
    (calculate_bayesian_score term count total_terms none none is_fp =
       tfClaim count total_terms * priorClaim term is_fp * Real.log ((count : ℝ) + 1)) ∧
    (∀ (doc_freq total_docs : ℕ), 0 < total_docs →
       calculate_bayesian_score term count total_terms (some doc_freq) (some total_docs)
           is_fp =
         tfClaim count total_terms * Real.log ((total_docs : ℝ) / (1 + (doc_freq : ℝ))) *
           priorClaim term is_fp) := by
  have htf : (if 0 < total_terms then (count : ℝ) / (total_terms : ℝ) else 0) =
      tfClaim count total_terms := by
    unfold tfClaim
    by_cases h0 : total_terms = 0
    · simp [h0]
    · simp [h0, Nat.pos_of_ne_zero h0]
  constructor
  · unfold calculate_bayesian_score
    dsimp only
    rw [htf]
    unfold priorClaim
    split_ifs <;> ring
  · intro doc_freq total_docs htd
    unfold calculate_bayesian_score
    dsimp only
    rw [htf]
    unfold priorClaim
    rw [if_pos htd]
    split_ifs <;> ring

/-- Claim C5 (witness): concrete instantiation at `term = "abc"`,
`count = 2`, `total = 4`, `doc_freq = 0`, `total_docs = 1`. -/
theorem calculate_bayesian_score_spec_witness :
    (1 : ℕ) ≤ 2 ∧ (0 : ℕ) < 1 ∧
    calculate_bayesian_score "abc" 2 4 (some 0) (some 1) false =
      tfClaim 2 4 * Real.log (((1 : ℕ) : ℝ) / (1 + ((0 : ℕ) : ℝ))) * priorClaim "abc" false :=
  ⟨by norm_num, by norm_num,
   (calculate_bayesian_score_spec "abc" 2 4 false (by norm_num)).2 0 1 (by norm_num)⟩

/-- Claim C8: the config assembler changes only the `colorGroups` field:
every other field of the template (value and relative order) is preserved,
and therefore any fixed per-field serialization renders those fields
byte-for-byte identically before and after assembly. -/
theorem generate_graph_json_preserves_fields (a : TagAnalyzer)
    (template : List (String × Json)) (twl fwl : Option ℤ) (tcs fcs : String) :
    (generate_graph_json a template twl fwl tcs fcs).filter
        (fun p => p.1 != "colorGroups") =
      template.filter (fun p => p.1 != "colorGroups") ∧
    ∀ render : String × Json → String,
      ((generate_graph_json a template twl fwl tcs fcs).filter
          (fun p => p.1 != "colorGroups")).map render =
        (template.filter (fun p => p.1 != "colorGroups")).map render := by
  have hmap : ∀ (fs : List (String × Json)) (v : Json),
      (fs.map (fun p => if p.1 == "colorGroups" then ("colorGroups", v) else p)).filter
          (fun p => p.1 != "colorGroups") =
        fs.filter (fun p => p.1 != "colorGroups") := by
    intro fs v
    induction fs with
    | nil => rfl
    | cons q fs ih =>
      rw [List.map_cons]
      by_cases hq : (q.1 == "colorGroups") = true
      · rw [if_pos hq]
        have e1 : (("colorGroups" : String) != "colorGroups") = false := by decide
        have e2 : (q.1 != "colorGroups") = false := by
          simp [bne, hq]
        simp only [List.filter_cons, e1, e2, Bool.false_eq_true, if_false]
        exact ih
      · rw [if_neg hq]
        have hqf : (q.1 == "colorGroups") = false := by
          revert hq
          cases q.1 == "colorGroups" <;> simp
        have e2 : (q.1 != "colorGroups") = true := by
          simp [bne, hqf]
        simp only [List.filter_cons, e2, if_true, ih]
  have hmain : ∀ (v : Json),
      (dictSetItem template "colorGroups" v).filter (fun p => p.1 != "colorGroups") =
        template.filter (fun p => p.1 != "colorGroups") := by
    intro v
    unfold dictSetItem
    by_cases h : template.any (fun p => p.1 == "colorGroups")
    · rw [if_pos h]
      exact hmap template v
    · rw [if_neg h]
      simp [List.filter_append, List.filter]
  have h1 : (generate_graph_json a template twl fwl tcs fcs).filter
      (fun p => p.1 != "colorGroups") = template.filter (fun p => p.1 != "colorGroups") := by
    unfold generate_graph_json
    exact hmain _
  exact ⟨h1, fun render => by rw [h1]⟩

theorem score_abcd_eq_abce :
    calculate_bayesian_score "abcd" 2 4 none none false =
      calculate_bayesian_score "abce" 2 4 none none false := by
  have h1 : pyStartsWith "abcd" "conv-" = false := by decide
  have h2 : pyStartsWith "abce" "conv-" = false := by decide
  have h3 : pyLen "abcd" = 4 := by decide
  have h4 : pyLen "abce" = 4 := by decide
  unfold calculate_bayesian_score
  dsimp only
  rw [h1, h2, h3, h4]

/-- Claim C4 (counterexample): two registries holding the same
(score, count, label) triples — the equal-scored tags `abce` and `abcd`,
each with count 2 — produce differently ordered outputs depending only on
the insertion order of the count table; in particular the tie is not broken
by label ordering (`abcd` < `abce` lexicographically, yet `abce` can come
first). -/
theorem generate_color_groups_order_counterexample :
    (generate_color_groups analyzerC4a (some 1) 60 none "rainbow" "rainbow").map
        (fun g => g.query) = ["tag: #abce", "tag: #abcd"] ∧
    (generate_color_groups analyzerC4b (some 1) 60 none "rainbow" "rainbow").map
        (fun g => g.query) = ["tag: #abcd", "tag: #abce"] := by
  constructor
  · have hred : generate_color_groups analyzerC4a (some 1) 60 none "rainbow" "rainbow" =
        tagGroupsPart analyzerC4a (some 1) 60 "rainbow" := rfl
    have habove : aboveWaterTags analyzerC4a (some 1) = [("abce", 2), ("abcd", 2)] := by
      decide
    have hscores : tagScores analyzerC4a (some 1) =
        [("abce", calculate_bayesian_score "abce" 2 4 none none false, 2),
         ("abcd", calculate_bayesian_score "abcd" 2 4 none none false, 2)] := by
      unfold tagScores
      rw [habove]
      norm_num [List.map, List.sum_cons, List.sum_nil]
    have hsorted : sortedTags analyzerC4a (some 1) 60 =
        [("abce", calculate_bayesian_score "abce" 2 4 none none false, 2),
         ("abcd", calculate_bayesian_score "abcd" 2 4 none none false, 2)] := by
      unfold sortedTags pySortDesc
      rw [hscores]
      simp only [List.insertionSort, List.orderedInsert]
      rw [if_pos (le_of_eq score_abcd_eq_abce)]
      rfl
    have hne : (aboveWaterTags analyzerC4a (some 1)).isEmpty = false := by decide
    rw [hred]
    unfold tagGroupsPart
    rw [hne]
    simp only [Bool.false_eq_true, if_false]
    rw [hsorted]
    simp only [List.enum, List.enumFrom, List.map]
    decide
  · have hred : generate_color_groups analyzerC4b (some 1) 60 none "rainbow" "rainbow" =
        tagGroupsPart analyzerC4b (some 1) 60 "rainbow" := rfl
    have habove : aboveWaterTags analyzerC4b (some 1) = [("abcd", 2), ("abce", 2)] := by
      decide
    have hscores : tagScores analyzerC4b (some 1) =
        [("abcd", calculate_bayesian_score "abcd" 2 4 none none false, 2),
         ("abce", calculate_bayesian_score "abce" 2 4 none none false, 2)] := by
      unfold tagScores
      rw [habove]
      norm_num [List.map, List.sum_cons, List.sum_nil]
    have hsorted : sortedTags analyzerC4b (some 1) 60 =
        [("abcd", calculate_bayesian_score "abcd" 2 4 none none false, 2),
         ("abce", calculate_bayesian_score "abce" 2 4 none none false, 2)] := by
      unfold sortedTags pySortDesc
      rw [hscores]
      simp only [List.insertionSort, List.orderedInsert]
      rw [if_pos (le_of_eq score_abcd_eq_abce.symm)]
      rfl
    have hne : (aboveWaterTags analyzerC4b (some 1)).isEmpty = false := by decide
    rw [hred]
    unfold tagGroupsPart
    rw [hne]
    simp only [Bool.false_eq_true, if_false]
    rw [hsorted]
    simp only [List.enum, List.enumFrom, List.map]
    decide

/-- Claim C4 (amended): within each included space the emitted order is by
non-increasing Bayesian score only; Python's sort is stable, so entries with
equal scores keep the insertion order of the count table — raw count and
label play no role in tie-breaking, and insertion order can therefore affect
the output order. -/
theorem generate_color_groups_order_amended :
    (∀ (a : TagAnalyzer) (wl : Option ℤ) (slots : ℕ),
        (sortedTags a wl slots).Pairwise (fun x y => y.2.1 ≤ x.2.1)) ∧
    (∀ (a : TagAnalyzer) (fwl : Option ℤ) (slots : ℕ),
        (sortedPatterns a fwl slots).Pairwise (fun x y => y.2.1 ≤ x.2.1)) ∧
    (∀ (l : List (String × ℝ × ℕ)) (c : ℝ),
        (pySortDesc (fun x => x.2.1) l).filter (fun x => decide (x.2.1 = c)) =
          l.filter (fun x => decide (x.2.1 = c))) := by
  refine ⟨?_, ?_, ?_⟩
  · intro a wl slots
    exact (pySortDesc_pairwise (fun x : String × ℝ × ℕ => x.2.1) (tagScores a wl)).sublist
      (List.take_sublist slots _)
  · intro a fwl slots
    exact (pySortDesc_pairwise (fun x : String × ℝ × ℕ => x.2.1)
      (patternScores a fwl)).sublist (List.take_sublist slots _)
  · intro l c
    exact pySortDesc_filter_stable (fun x => x.2.1) c l
